import Mathlib

/-!
Verification of the service-area eligibility logic of the drycleaner
single-page app (source: src/routes/+page.svelte), together with models of
the two collaborators it imports: $lib/distanceCalculator and $lib/config
are described by the design document but absent from the repository
snapshot, so they are modelled from the spec.  All numeric code is modelled
over the reals.
-/

/-- A geographic point in the (latitude, longitude) convention of the design
document, section 3. -/
structure GeoPoint where
  latitude : ℝ
  longitude : ℝ

/-- The store configuration consumed by the page: STORE_CONFIG.coordinates
is assumed [lat, lng] (comment at line 34 of the source) and
STORE_CONFIG.serviceRadius is the radius in miles. -/
structure StoreConfig where
  coordinates : ℝ × ℝ
  serviceRadius : ℝ

/-- Modelled from the spec: degree-to-radian conversion, step 1 of the
haversine algorithm of section 4.1 ($lib/distanceCalculator is not in the
snapshot). -/
noncomputable def toRadians (deg : ℝ) : ℝ := deg * Real.pi / 180

/-- Modelled from the spec: the two-argument arctangent used in step 4 of
section 4.1, with the standard branch definition. -/
noncomputable def atan2 (y x : ℝ) : ℝ :=
  if 0 < x then Real.arctan (y / x)
  else if x < 0 ∧ 0 ≤ y then Real.arctan (y / x) + Real.pi
  else if x < 0 ∧ y < 0 then Real.arctan (y / x) - Real.pi
  else if x = 0 ∧ 0 < y then Real.pi / 2
  else if x = 0 ∧ y < 0 then -(Real.pi / 2)
  else 0

/-- Modelled from the spec: the haversine intermediate
h = sin^2(dLat/2) + cos(lat_a) * cos(lat_b) * sin^2(dLon/2) of section 4.1
step 3, after converting to radians (steps 1-2). -/
noncomputable def haversineH (a b : GeoPoint) : ℝ :=
  Real.sin ((toRadians b.latitude - toRadians a.latitude) / 2) ^ 2 +
    Real.cos (toRadians a.latitude) * Real.cos (toRadians b.latitude) *
      Real.sin ((toRadians b.longitude - toRadians a.longitude) / 2) ^ 2

/-- Modelled from the spec: calculateDistance of $lib/distanceCalculator
(not in the snapshot): haversine distance with Earth radius 3958.8 miles,
section 4.1 steps 1-5.  Section 4.1 notes that the original system performs
no coordinate validation, so the function is total on all real inputs. -/
noncomputable def calculateDistance (a b : GeoPoint) : ℝ :=
  3958.8 * (2 * atan2 (Real.sqrt (haversineH a b)) (Real.sqrt (1 - haversineH a b)))

/-- The rendered eligibility verdict: the template at line 253 of
+page.svelte branches on the comparison of the computed distance with the
literal constant 25 (STORE_CONFIG is in scope in the component but is not
read by this comparison). -/
def withinService (_config : StoreConfig) (distanceMiles : ℝ) : Prop :=
  distanceMiles ≤ 25

/-- createRadiusCircle of +page.svelte lines 139-153: the loop
for (i = 0; i < 360; i += 5) produces the vertex for angle i = 5 * k,
k = 0, ..., 71, at center + (r * cos t, r * sin t) where
center = (coordinates[1], coordinates[0]) (that is, (lng, lat)) and
r = serviceRadius / 69. -/
noncomputable def createRadiusCircle (config : StoreConfig) : List (ℝ × ℝ) :=
  (List.range 72).map fun (k : ℕ) =>
    (config.coordinates.2 +
        config.serviceRadius / 69 * Real.cos (5 * (k : ℝ) * Real.pi / 180),
      config.coordinates.1 +
        config.serviceRadius / 69 * Real.sin (5 * (k : ℝ) * Real.pi / 180))

/-- Outcome of the geocoding fetch inside checkEligibility: either the fetch
or the JSON decoding fails, or it returns the list of feature coordinates,
each a (longitude, latitude) pair exactly as delivered by the geocoder. -/
inductive FetchOutcome where
  | fetchFailure : FetchOutcome
  | success : List (ℝ × ℝ) → FetchOutcome

/-- The component state assigned by a completed checkEligibility call: the
error message and the distance result (null modelled as none). -/
structure PageState where
  error : String
  distance : Option ℝ

/-- checkEligibility of +page.svelte lines 23-47, parameterised by the
distance function so that non-invocation of the evaluator is expressible:
an empty feature list throws at line 30, before any distance computation,
and every throw lands in the catch block that stores the generic message
and resets distance to null; on success the first feature's coordinates
are flipped from [lng, lat] to [lat, lng] at line 37 and the store center
is passed as [lat, lng] at line 36. -/
def checkEligibilityWith (dist : GeoPoint → GeoPoint → ℝ) (config : StoreConfig) :
    FetchOutcome → PageState
  | FetchOutcome.fetchFailure =>
      { error := "Could not validate address. Please try again.", distance := none }
  | FetchOutcome.success [] =>
      { error := "Could not validate address. Please try again.", distance := none }
  | FetchOutcome.success (f :: _) =>
      { error := "",
        distance := some (dist
          { latitude := config.coordinates.1, longitude := config.coordinates.2 }
          { latitude := f.2, longitude := f.1 }) }

/-- checkEligibility with the actual distance calculator plugged in. -/
noncomputable def checkEligibility (config : StoreConfig) : FetchOutcome → PageState :=
  checkEligibilityWith calculateDistance config

/-- Modelled from the spec: the configuration error of section 7
($lib/config is not in the snapshot). -/
inductive ConfigError where
  | invalidServiceConfig : ConfigError

/-- Modelled from the spec: configuration loading ($lib/config is not in
the snapshot); sections 4.2 and 7: a non-positive radius is
InvalidServiceConfig, fatal at load time. -/
noncomputable def loadServiceConfig (lat lng radius : ℝ) : Except ConfigError StoreConfig :=
  if radius ≤ 0 then Except.error ConfigError.invalidServiceConfig
  else Except.ok { coordinates := (lat, lng), serviceRadius := radius }

/-- Squared sines of half-differences are symmetric in the two endpoints. -/
theorem sin_sq_half_sub_comm (x y : ℝ) :
    Real.sin ((x - y) / 2) ^ 2 = Real.sin ((y - x) / 2) ^ 2 := by
  rw [show (x - y) / 2 = -((y - x) / 2) by ring, Real.sin_neg]
  ring

/-- The haversine intermediate is symmetric in its two points. -/
theorem haversineH_comm (a b : GeoPoint) : haversineH a b = haversineH b a := by
  unfold haversineH
  rw [sin_sq_half_sub_comm (toRadians b.latitude) (toRadians a.latitude),
    sin_sq_half_sub_comm (toRadians b.longitude) (toRadians a.longitude)]
  ring

/-- The haversine distance is symmetric in its two points. -/
theorem calculateDistance_comm (a b : GeoPoint) :
    calculateDistance a b = calculateDistance b a := by
  unfold calculateDistance
  rw [haversineH_comm]

/-- The haversine intermediate vanishes on the diagonal. -/
theorem haversineH_self (a : GeoPoint) : haversineH a a = 0 := by
  unfold haversineH
  simp

/-- The modelled two-argument arctangent sends (0, 1) to 0. -/
theorem atan2_zero_one : atan2 0 1 = 0 := by
  unfold atan2
  rw [if_pos (by norm_num : (0:ℝ) < 1)]
  norm_num [Real.arctan_zero]

/-- The distance from a point to itself is zero. -/
theorem calculateDistance_self (a : GeoPoint) : calculateDistance a a = 0 := by
  unfold calculateDistance
  rw [haversineH_self]
  rw [Real.sqrt_zero, show (1:ℝ) - 0 = 1 by ring, Real.sqrt_one, atan2_zero_one]
  ring

/-- The arctangent is non-negative on non-negative inputs. -/
theorem arctan_nonneg_of_nonneg {x : ℝ} (hx : 0 ≤ x) : 0 ≤ Real.arctan x := by
  have h := Real.arctan_strictMono.monotone hx
  rwa [Real.arctan_zero] at h

/-- The modelled two-argument arctangent is non-negative whenever its first
argument is. -/
theorem atan2_nonneg {y x : ℝ} (hy : 0 ≤ y) : 0 ≤ atan2 y x := by
  unfold atan2
  split_ifs with h1 h2 h3 h4 h5
  · exact arctan_nonneg_of_nonneg (div_nonneg hy (le_of_lt h1))
  · have h := Real.neg_pi_div_two_lt_arctan (y / x)
    linarith [Real.pi_pos]
  · linarith [h3.2]
  · linarith [Real.pi_pos]
  · linarith [h5.2]
  · exact le_refl 0

/-- The haversine distance is never negative, on any real inputs. -/
theorem calculateDistance_nonneg (a b : GeoPoint) : 0 ≤ calculateDistance a b := by
  unfold calculateDistance
  have h := @atan2_nonneg (Real.sqrt (haversineH a b))
    (Real.sqrt (1 - haversineH a b)) (Real.sqrt_nonneg _)
  linarith

/-- At the equatorial antipode pair (0, 0) and (0, 180) the haversine
intermediate is exactly 1. -/
theorem haversineH_antipodal : haversineH ⟨0, 0⟩ ⟨0, 180⟩ = 1 := by
  have h0 : toRadians 0 = 0 := by unfold toRadians; ring
  have h180 : toRadians 180 = Real.pi := by unfold toRadians; ring
  show Real.sin ((toRadians 0 - toRadians 0) / 2) ^ 2 +
      Real.cos (toRadians 0) * Real.cos (toRadians 0) *
        Real.sin ((toRadians 180 - toRadians 0) / 2) ^ 2 = 1
  rw [h0, h180]
  norm_num [Real.sin_zero, Real.cos_zero, Real.sin_pi_div_two]

/-- At the equatorial antipode pair the haversine distance is exactly
3958.8 times pi. -/
theorem calculateDistance_antipodal :
    calculateDistance ⟨0, 0⟩ ⟨0, 180⟩ = 3958.8 * Real.pi := by
  unfold calculateDistance
  rw [haversineH_antipodal]
  rw [show (1:ℝ) - 1 = 0 by ring, Real.sqrt_one, Real.sqrt_zero]
  have ha : atan2 1 0 = Real.pi / 2 := by
    unfold atan2
    rw [if_neg (by norm_num : ¬ (0:ℝ) < 0),
      if_neg (by norm_num : ¬ ((0:ℝ) < 0 ∧ (0:ℝ) ≤ 1)),
      if_neg (by norm_num : ¬ ((0:ℝ) < 0 ∧ (1:ℝ) < 0)),
      if_pos (by norm_num : (0:ℝ) = 0 ∧ (0:ℝ) < 1)]
  rw [ha]
  ring

/-- The first vertex of the radius circle, extracted generically. -/
theorem createRadiusCircle_head (c : StoreConfig) :
    (createRadiusCircle c).head? =
      some (c.coordinates.2 +
          c.serviceRadius / 69 * Real.cos (5 * ((0:ℕ) : ℝ) * Real.pi / 180),
        c.coordinates.1 +
          c.serviceRadius / 69 * Real.sin (5 * ((0:ℕ) : ℝ) * Real.pi / 180)) := rfl

/-- Two radius circles around the same center agree only when the radii
agree: the circle determines the radius through its first vertex. -/
theorem circle_radius_injective {coords : ℝ × ℝ} {r₁ r₂ : ℝ}
    (h : createRadiusCircle (StoreConfig.mk coords r₁) =
      createRadiusCircle (StoreConfig.mk coords r₂)) : r₁ = r₂ := by
  have h0 := congrArg List.head? h
  rw [createRadiusCircle_head, createRadiusCircle_head] at h0
  simp only [Nat.cast_zero, mul_zero, zero_mul, zero_div, Real.cos_zero,
    Real.sin_zero, mul_one, add_zero, Option.some.injEq, Prod.mk.injEq] at h0
  have h1 := h0.1
  linarith

/-- C1 (counterexample): with a configured radius of 20000 miles and the
candidate geocoded to latitude 0, longitude 180, the computed distance
3958.8 * pi is within the configured radius, yet the rendered verdict is
negative, because the template compares against the literal 25 rather than
config.radiusMiles. -/
theorem withinService_radius_counterexample :
    calculateDistance ⟨0, 0⟩ ⟨0, 180⟩ ≤ (StoreConfig.mk (0, 0) 20000).serviceRadius ∧
      ¬ withinService (StoreConfig.mk (0, 0) 20000) (calculateDistance ⟨0, 0⟩ ⟨0, 180⟩) := by
  rw [calculateDistance_antipodal]
  constructor
  · show (3958.8:ℝ) * Real.pi ≤ 20000
    linarith [Real.pi_le_four]
  · unfold withinService
    push_neg
    linarith [Real.pi_gt_three]

/-- C1 (amended): for every candidate distance the rendered verdict is
withinService = (distanceMiles ≤ 25) with the literal constant 25,
inclusive at the boundary: a distance of exactly 25 is eligible and a
distance of 25 + 0.01 is not, for every configuration. -/
theorem withinService_iff_le_25 :
    ∀ (config : StoreConfig) (d : ℝ),
      (withinService config d ↔ d ≤ 25) ∧
        withinService config 25 ∧ ¬ withinService config (25 + 0.01) := by
  intro config d
  refine ⟨Iff.rfl, le_refl _, ?_⟩
  unfold withinService
  norm_num

/-- C2: createRadiusCircle returns exactly 72 vertices, the k-th placed at
angle 5 * k degrees via center + (r * cos t, r * sin t) with
r = serviceRadius / 69, and every vertex lies within r * 1.0001
planar-degree distance of the center. -/
theorem createRadiusCircle_spec :
    ∀ (c : StoreConfig), 0 ≤ c.serviceRadius →
      (createRadiusCircle c).length = 72 ∧
        ∀ p ∈ createRadiusCircle c,
          (∃ k : ℕ, k < 72 ∧
              p = (c.coordinates.2 +
                  c.serviceRadius / 69 * Real.cos (5 * (k : ℝ) * Real.pi / 180),
                c.coordinates.1 +
                  c.serviceRadius / 69 * Real.sin (5 * (k : ℝ) * Real.pi / 180))) ∧
            Real.sqrt ((p.1 - c.coordinates.2) ^ 2 + (p.2 - c.coordinates.1) ^ 2) ≤
              c.serviceRadius / 69 * 1.0001 := by
  intro c hr
  have hr69 : 0 ≤ c.serviceRadius / 69 := by positivity
  refine ⟨by simp only [createRadiusCircle, List.length_map, List.length_range], ?_⟩
  intro p hp
  unfold createRadiusCircle at hp
  obtain ⟨k, hkmem, hfk⟩ := List.mem_map.1 hp
  have hk : k < 72 := List.mem_range.1 hkmem
  subst hfk
  constructor
  · exact ⟨k, hk, rfl⟩
  · show Real.sqrt
        ((c.coordinates.2 + c.serviceRadius / 69 * Real.cos (5 * (k : ℝ) * Real.pi / 180) -
            c.coordinates.2) ^ 2 +
          (c.coordinates.1 + c.serviceRadius / 69 * Real.sin (5 * (k : ℝ) * Real.pi / 180) -
            c.coordinates.1) ^ 2) ≤ c.serviceRadius / 69 * 1.0001
    have ht := Real.sin_sq_add_cos_sq (5 * (k : ℝ) * Real.pi / 180)
    have hsum : (c.coordinates.2 +
          c.serviceRadius / 69 * Real.cos (5 * (k : ℝ) * Real.pi / 180) -
            c.coordinates.2) ^ 2 +
        (c.coordinates.1 +
          c.serviceRadius / 69 * Real.sin (5 * (k : ℝ) * Real.pi / 180) -
            c.coordinates.1) ^ 2 = (c.serviceRadius / 69) ^ 2 := by
      linear_combination (c.serviceRadius / 69) ^ 2 * ht
    rw [hsum, Real.sqrt_sq hr69]
    nlinarith [hr69]

/-- C2 witness at the Canton store coordinates with a 25-mile radius. -/
theorem createRadiusCircle_spec_witness :
    (createRadiusCircle (StoreConfig.mk (34.1, -84.5) 25)).length = 72 ∧
      ∀ p ∈ createRadiusCircle (StoreConfig.mk (34.1, -84.5) 25),
        (∃ k : ℕ, k < 72 ∧
            p = ((-84.5) + 25 / 69 * Real.cos (5 * (k : ℝ) * Real.pi / 180),
              34.1 + 25 / 69 * Real.sin (5 * (k : ℝ) * Real.pi / 180))) ∧
          Real.sqrt ((p.1 - (-84.5)) ^ 2 + (p.2 - 34.1) ^ 2) ≤ 25 / 69 * 1.0001 :=
  createRadiusCircle_spec (StoreConfig.mk (34.1, -84.5) 25) (by norm_num)

/-- C3: on a successful geocode the first feature's [lng, lat] pair is
flipped to (latitude, longitude) before the distance computation, and the
store center is likewise passed in the (latitude, longitude) convention. -/
theorem checkEligibility_flips_coordinates :
    ∀ (config : StoreConfig) (lng lat : ℝ) (rest : List (ℝ × ℝ)),
      (checkEligibility config (FetchOutcome.success ((lng, lat) :: rest))).distance =
        some (calculateDistance
          { latitude := config.coordinates.1, longitude := config.coordinates.2 }
          { latitude := lat, longitude := lng }) := by
  intro config lng lat rest
  rfl

/-- C4: when the geocoder returns zero candidates the distance evaluator is
never invoked (the result is independent of the distance function), and the
caller surfaces the generic failure message with distance reset to null. -/
theorem geocodeNotFound_no_evaluation :
    ∀ (dist₁ dist₂ : GeoPoint → GeoPoint → ℝ) (config : StoreConfig),
      checkEligibilityWith dist₁ config (FetchOutcome.success []) =
          checkEligibilityWith dist₂ config (FetchOutcome.success []) ∧
        (checkEligibility config (FetchOutcome.success [])).error =
          "Could not validate address. Please try again." ∧
        (checkEligibility config (FetchOutcome.success [])).distance = none := by
  intro dist₁ dist₂ config
  exact ⟨rfl, rfl, rfl⟩

/-- C5 (counterexample): at latitude 91 the distance computation does not
fail with any error: it evaluates normally (here to 0 for the identical
pair), since the system performs no coordinate-range validation. -/
theorem invalidCoordinate_not_raised : calculateDistance ⟨91, 0⟩ ⟨91, 0⟩ = 0 :=
  calculateDistance_self _

/-- C5 (amended): the distance computation performs no range validation:
it is total on all real coordinates, including out-of-range ones such as
latitude 91, always yielding an ordinary non-negative number; no
InvalidCoordinate failure exists in the system. -/
theorem calculateDistance_total_no_validation :
    ∀ (lat₁ lng₁ lat₂ lng₂ : ℝ),
      0 ≤ calculateDistance ⟨lat₁, lng₁⟩ ⟨lat₂, lng₂⟩ ∧
        calculateDistance ⟨lat₁, lng₁⟩ ⟨lat₁, lng₁⟩ = 0 := by
  intro lat₁ lng₁ lat₂ lng₂
  exact ⟨calculateDistance_nonneg _ _, calculateDistance_self _⟩

/-- C6: a non-positive radius is rejected as InvalidServiceConfig at
configuration-load time, and the per-query path never inspects the radius
(two configurations differing only in the radius run identically). -/
theorem invalidServiceConfig_at_load :
    (∀ lat lng radius : ℝ, radius ≤ 0 →
        loadServiceConfig lat lng radius =
          Except.error ConfigError.invalidServiceConfig) ∧
      ∀ (coords : ℝ × ℝ) (r₁ r₂ : ℝ) (outcome : FetchOutcome),
        checkEligibility (StoreConfig.mk coords r₁) outcome =
          checkEligibility (StoreConfig.mk coords r₂) outcome := by
  constructor
  · intro lat lng radius h
    unfold loadServiceConfig
    rw [if_pos h]
  · intro coords r₁ r₂ outcome
    cases outcome with
    | fetchFailure => rfl
    | success feats =>
      cases feats with
      | nil => rfl
      | cons f rest => rfl

/-- C6 witness: radius 0 is rejected at load, and the query path at radius
25 and radius 50 behaves identically. -/
theorem invalidServiceConfig_at_load_witness :
    loadServiceConfig 34.1 (-84.5) 0 =
        Except.error ConfigError.invalidServiceConfig ∧
      checkEligibility (StoreConfig.mk (34.1, -84.5) 25) FetchOutcome.fetchFailure =
        checkEligibility (StoreConfig.mk (34.1, -84.5) 50) FetchOutcome.fetchFailure :=
  ⟨invalidServiceConfig_at_load.1 34.1 (-84.5) 0 (by norm_num),
    invalidServiceConfig_at_load.2 (34.1, -84.5) 25 50 FetchOutcome.fetchFailure⟩

/-- C7: the distance function is symmetric, in fact exactly so in the real
model, hence in particular within 1e-9 relative tolerance. -/
theorem calculateDistance_symmetric :
    ∀ a b : GeoPoint,
      calculateDistance a b = calculateDistance b a ∧
        |calculateDistance a b - calculateDistance b a| ≤
          1e-9 * |calculateDistance a b| := by
  intro a b
  have h := calculateDistance_comm a b
  refine ⟨h, ?_⟩
  rw [h, sub_self, abs_zero]
  positivity

/-- C8: the distance function is zero on the diagonal and non-negative
everywhere. -/
theorem calculateDistance_zero_self_nonneg :
    (∀ a : GeoPoint, calculateDistance a a = 0) ∧
      ∀ a b : GeoPoint, 0 ≤ calculateDistance a b :=
  ⟨calculateDistance_self, calculateDistance_nonneg⟩

/-- C9: the rendered verdict does not depend on the configured service
radius (the template compares against the literal 25), while the drawn
boundary polygon does change with the radius. -/
theorem verdict_radius_independent_polygon_dependent :
    (∀ (coords : ℝ × ℝ) (r₁ r₂ d : ℝ),
        withinService (StoreConfig.mk coords r₁) d ↔
          withinService (StoreConfig.mk coords r₂) d) ∧
      ∀ (coords : ℝ × ℝ) (r₁ r₂ : ℝ), r₁ ≠ r₂ →
        createRadiusCircle (StoreConfig.mk coords r₁) ≠
          createRadiusCircle (StoreConfig.mk coords r₂) := by
  constructor
  · intro coords r₁ r₂ d
    exact Iff.rfl
  · intro coords r₁ r₂ hne heq
    exact hne (circle_radius_injective heq)

/-- C9 witness: radii 10 and 40 give the same verdict at distance 20, while
radii 25 and 50 give different polygons. -/
theorem verdict_radius_independent_witness :
    (withinService (StoreConfig.mk (34.1, -84.5) 10) 20 ↔
        withinService (StoreConfig.mk (34.1, -84.5) 40) 20) ∧
      createRadiusCircle (StoreConfig.mk (34.1, -84.5) 25) ≠
        createRadiusCircle (StoreConfig.mk (34.1, -84.5) 50) :=
  ⟨verdict_radius_independent_polygon_dependent.1 (34.1, -84.5) 10 40 20,
    verdict_radius_independent_polygon_dependent.2 (34.1, -84.5) 25 50 (by norm_num)⟩

/-- C10: after every completed checkEligibility call the error message and
the distance are mutually exclusive: on failure the error is a non-empty
message and the distance is null, on success the error is empty and the
distance is a number. -/
theorem error_distance_exclusive :
    ∀ (config : StoreConfig) (outcome : FetchOutcome),
      ((checkEligibility config outcome).error = "" ∧
          ∃ d : ℝ, (checkEligibility config outcome).distance = some d) ∨
        ((checkEligibility config outcome).error ≠ "" ∧
          (checkEligibility config outcome).distance = none) := by
  intro config outcome
  cases outcome with
  | fetchFailure =>
    refine Or.inr ⟨?_, rfl⟩
    show ("Could not validate address. Please try again." : String) ≠ ""
    decide
  | success feats =>
    cases feats with
    | nil =>
      refine Or.inr ⟨?_, rfl⟩
      show ("Could not validate address. Please try again." : String) ≠ ""
      decide
    | cons f rest => exact Or.inl ⟨rfl, ⟨_, rfl⟩⟩
